import Mathlib

/-!
Verification of the lawn-plan decision engine (`lawn_care/triggers.py`) and the
soil-temperature projector (`lawn_care/scraper.py`).

Python `datetime.date` values are modelled by their proleptic-Gregorian ordinal
(days since 1970-01-01, as an `Int`); `timedelta(days=k)` is integer addition and
date comparison is integer comparison.  Calendar decomposition (`.month`, `.year`)
uses the standard civil-from-days algorithm.  Temperatures are modelled by `ℚ`,
with Python's `round(x, 1)` modelled by exact decimal round-half-to-even.
Python dicts are modelled by association lists; reason strings, which are built
from a fixed set of f-string templates, are modelled by the inductive `Reason`,
one constructor per template, carrying the interpolated data.
-/

/-- Days since 1970-01-01 of the civil date `(y, m, d)` (proleptic Gregorian). -/
def daysFromCivil (y m d : Int) : Int :=
  let y' := y - (if m ≤ 2 then 1 else 0)
  let era := y' / 400
  let yoe := y' - era * 400
  let doy := (153 * (m + (if 2 < m then -3 else 9)) + 2) / 5 + d - 1
  let doe := yoe * 365 + yoe / 4 - yoe / 100 + doy
  era * 146097 + doe - 719468

/-- Civil date `(y, m, d)` of a day count since 1970-01-01 (proleptic Gregorian). -/
def civilFromDays (z : Int) : Int × Int × Int :=
  let z' := z + 719468
  let era := z' / 146097
  let doe := z' - era * 146097
  let yoe := (doe - doe / 1460 + doe / 36524 - doe / 146096) / 365
  let y := yoe + era * 400
  let doy := doe - (365 * yoe + yoe / 4 - yoe / 100)
  let mp := (5 * doy + 2) / 153
  let d := doy - (153 * mp + 2) / 5 + 1
  let m := mp + (if mp < 10 then 3 else -9)
  (y + (if m ≤ 2 then 1 else 0), m, d)

/-- The `.month` attribute of a Python `date`. -/
def monthOf (d : Int) : Int := (civilFromDays d).2.1

/-- The `.year` attribute of a Python `date`. -/
def yearOf (d : Int) : Int := (civilFromDays d).1

/-- A well-formed date string as accepted by `parse_date`: either `"MM-DD"`
(length 5) or `"YYYY-MM-DD"` (length 10). -/
inductive DateStr where
  | md (m d : Int)
  | ymd (y m d : Int)
deriving DecidableEq

/-- Model of `triggers.parse_date` with `year=None`: an `MM-DD` string gets the
ambient system-clock year `sys_year` (in Python, `date.today().year`); a full
`YYYY-MM-DD` string carries its own year. -/
def parse_date (sys_year : Int) : DateStr → Int
  | .md m d => daysFromCivil sys_year m d
  | .ymd y m d => daysFromCivil y m d

/-- One soil-temperature history entry `{"date": ..., "temp": ...}`. -/
structure TempEntry where
  date : Int
  temp : ℚ
deriving DecidableEq

/-- Model of `triggers.count_consecutive_days_at_temp`: count the leading
entries of the (newest-first) history meeting the threshold condition, stopping
at the first failure. -/
def count_consecutive_days_at_temp : List TempEntry → ℚ → String → Nat
  | [], _, _ => 0
  | e :: rest, threshold, direction =>
    if direction = "rising" ∧ threshold ≤ e.temp then
      count_consecutive_days_at_temp rest threshold direction + 1
    else if direction = "falling" ∧ e.temp ≤ threshold then
      count_consecutive_days_at_temp rest threshold direction + 1
    else
      0

/-- The trigger variants dispatched on `trigger["type"]` in `evaluate_trigger`.
`soil_temp` carries the optional `direction` (default `"rising"`) and optional
`consecutive_days` (default 1); `unknown` covers any unrecognised type tag. -/
inductive Trigger where
  | soil_temp (threshold_f : ℚ) (direction : Option String) (consecutive_days : Option Nat)
  | soil_temp_falling (threshold_f : ℚ) (consecutive_days : Option Nat)
  | days_after (reference_id : String) (days_min days_max : Int)
  | calendar_window (window_start window_end : DateStr)
  | same_as (reference_id : String)
  | unknown (tag : Option String)
deriving DecidableEq

/-- A schedule entry (`app` dict): id, display metadata, trigger, and the
optional `kc_typical_window` `{"start": ..., "end": ...}` pair. -/
structure App where
  id : String
  name : String
  category : Option String
  month_target : Option String
  products : Option (List String)
  warnings : Option (List String)
  optional : Option Bool
  trigger : Trigger
  kc_typical_window : Option (DateStr × DateStr)
deriving DecidableEq

/-- The schedule dict: its `"applications"` list. -/
structure Schedule where
  applications : List App
deriving DecidableEq

/-- The persisted state dict consumed by the trigger engine. `completed` maps
treatment ids to completion dates (the code stores `YYYY-MM-DD` strings and
re-parses them with `strptime`; since that round-trip is the identity on valid
dates, the model stores the dates directly). -/
structure PersistedState where
  completed : List (String × Int)
  soil_temp_history : List TempEntry
  last_soil_temp_f : Option ℚ := none
  last_check : Option Int := none
deriving DecidableEq

/-- The reason strings produced by the evaluator, one constructor per f-string
template, carrying the interpolated values. -/
inductive Reason where
  | empty
  | completedOn (d : Int)
  | unknownType (tag : Option String)
  | waitingForData
  | soilReadyRising (soil threshold : ℚ) (consecutive : Nat)
  | soilNotReadyRising (soil : ℚ) (needed : Nat) (direction : String) (threshold : ℚ) (consecutive : Nat)
  | waitingForFallSeason
  | soilReadyFalling (soil threshold : ℚ) (consecutive : Nat)
  | soilNotReadyFalling (soil : ℚ) (needed : Nat) (threshold : ℚ) (consecutive : Nat)
  | waitingOn (refId : String)
  | inWindow (daysMin daysMax : Int) (refId : String)
  | windowOpensIn (days : Int) (start : Int)
  | windowClosed (wend : Int)
  | inCalendarWindow (wstart wend : Int)
  | refNotFound (refId : String)
  | sameAsWrap (refId : String) (inner : Reason)
deriving DecidableEq

/-- The result dict built by `evaluate_trigger`. -/
structure Verdict where
  ready : Bool
  projected_date : Option Int
  reason : Reason
  window_start : Option Int
  window_end : Option Int
deriving DecidableEq

/-- The all-zeroes result dict initialised at the top of `evaluate_trigger`. -/
def Verdict.base : Verdict :=
  { ready := false, projected_date := none, reason := .empty,
    window_start := none, window_end := none }

/-- Model of `_evaluate_soil_temp_rising`: the typical window (if present) is
populated first, then the missing-data guard, then the run-length test. -/
def evaluate_soil_temp_rising (sys_year : Int) (app : App) (threshold : ℚ)
    (direction' : Option String) (consecutive_days : Option Nat)
    (history : List TempEntry) (soil_temp : Option ℚ) (today : Int)
    (result : Verdict) : Verdict :=
  let direction := direction'.getD "rising"
  let consecutive_needed := consecutive_days.getD 1
  let r1 :=
    match app.kc_typical_window with
    | some w => { result with window_start := some (parse_date sys_year w.1),
                              window_end := some (parse_date sys_year w.2) }
    | none => result
  match soil_temp with
  | none => { r1 with reason := .waitingForData }
  | some st =>
    let consecutive := count_consecutive_days_at_temp history threshold direction
    if consecutive_needed ≤ consecutive then
      { r1 with ready := true, projected_date := some today,
                reason := .soilReadyRising st threshold consecutive }
    else
      { r1 with reason := .soilNotReadyRising st consecutive_needed direction threshold consecutive }

/-- Model of `_evaluate_soil_temp_falling`: a calendar guard (`today.month < 8`)
precedes everything; otherwise run-length logic with direction `"falling"`, and
the typical window (if present) is populated at the end. -/
def evaluate_soil_temp_falling (sys_year : Int) (app : App) (threshold : ℚ)
    (consecutive_days : Option Nat) (history : List TempEntry)
    (soil_temp : Option ℚ) (today : Int) (result : Verdict) : Verdict :=
  let consecutive_needed := consecutive_days.getD 1
  if monthOf today < 8 then
    let r1 := { result with reason := .waitingForFallSeason }
    match app.kc_typical_window with
    | some w => { r1 with window_start := some (parse_date sys_year w.1),
                          window_end := some (parse_date sys_year w.2) }
    | none => r1
  else
    match soil_temp with
    | none => { result with reason := .waitingForData }
    | some st =>
      let consecutive := count_consecutive_days_at_temp history threshold "falling"
      let r1 :=
        if consecutive_needed ≤ consecutive then
          { result with ready := true, projected_date := some today,
                        reason := .soilReadyFalling st threshold consecutive }
        else
          { result with reason := .soilNotReadyFalling st consecutive_needed threshold consecutive }
      match app.kc_typical_window with
      | some w => { r1 with window_start := some (parse_date sys_year w.1),
                            window_end := some (parse_date sys_year w.2) }
      | none => r1

/-- Model of `_evaluate_days_after`: window derived from the referenced
treatment's completion date. -/
def evaluate_days_after (reference_id : String) (days_min days_max : Int)
    (completed : List (String × Int)) (today : Int) (result : Verdict) : Verdict :=
  match completed.lookup reference_id with
  | none => { result with reason := .waitingOn reference_id }
  | some ref_date =>
    let window_start := ref_date + days_min
    let window_end := ref_date + days_max
    let r1 := { result with window_start := some window_start, window_end := some window_end }
    if window_start ≤ today ∧ today ≤ window_end then
      { r1 with ready := true, projected_date := some today,
                reason := .inWindow days_min days_max reference_id }
    else if today < window_start then
      { r1 with projected_date := some window_start,
                reason := .windowOpensIn (window_start - today) window_start }
    else
      { r1 with reason := .windowClosed window_end }

/-- Model of `_evaluate_calendar_window`: fixed calendar bounds, parsed with
`parse_date` (hence year-resolved from the ambient clock for `MM-DD` bounds). -/
def evaluate_calendar_window (sys_year : Int) (ws we : DateStr) (today : Int)
    (result : Verdict) : Verdict :=
  let window_start := parse_date sys_year ws
  let window_end := parse_date sys_year we
  let r1 := { result with window_start := some window_start, window_end := some window_end }
  if window_start ≤ today ∧ today ≤ window_end then
    { r1 with ready := true, projected_date := some today,
              reason := .inCalendarWindow window_start window_end }
  else if today < window_start then
    { r1 with projected_date := some window_start,
              reason := .windowOpensIn (window_start - today) window_start }
  else
    { r1 with reason := .windowClosed window_end }

/-- Lookup in the dict `{app["id"]: app for app in applications}`: on duplicate
ids the comprehension keeps the last occurrence. -/
def dict_of_apps (apps : List App) (i : String) : Option App :=
  apps.foldl (fun acc a => if a.id = i then some a else acc) none

/-- Model of `triggers.evaluate_trigger`.  The extra `sys_year` argument is the
ambient system-clock year consulted by `parse_date`; `fuel` bounds the `same_as`
recursion depth (Python's call stack), and is only consumed by `same_as` hops. -/
def evaluate_trigger (sys_year : Int) :
    Nat → App → PersistedState → Option ℚ → Int → List App → Verdict
  | fuel, app, state, soil_temp, today, all_apps =>
    let completed := state.completed
    let history := state.soil_temp_history
    match completed.lookup app.id with
    | some d => { Verdict.base with reason := .completedOn d }
    | none =>
      match app.trigger with
      | .soil_temp threshold dir cons =>
          evaluate_soil_temp_rising sys_year app threshold dir cons history soil_temp today .base
      | .soil_temp_falling threshold cons =>
          evaluate_soil_temp_falling sys_year app threshold cons history soil_temp today .base
      | .days_after ref dmin dmax =>
          evaluate_days_after ref dmin dmax completed today .base
      | .calendar_window ws we =>
          evaluate_calendar_window sys_year ws we today .base
      | .same_as ref =>
        match dict_of_apps all_apps ref with
        | none => { Verdict.base with reason := .refNotFound ref }
        | some ref_app =>
          match fuel with
          | 0 => Verdict.base
          | f + 1 =>
            let r := evaluate_trigger sys_year f ref_app state soil_temp today all_apps
            { ready := r.ready, projected_date := r.projected_date,
              reason := .sameAsWrap ref r.reason,
              window_start := r.window_start, window_end := r.window_end }
      | .unknown tag => { Verdict.base with reason := .unknownType tag }

/-- One enriched entry of `get_upcoming_applications`' output (the merged dict
of treatment metadata and trigger verdict). -/
structure Entry where
  id : String
  name : String
  category : String
  month_target : String
  products : List String
  warnings : List String
  optional : Bool
  schedule_order : Nat
  ready : Bool
  projected_date : Option Int
  reason : Reason
  window_start : Option Int
  window_end : Option Int
deriving DecidableEq

/-- The entry dict built in the loop of `get_upcoming_applications`. -/
def mk_entry (idx : Nat) (app : App) (v : Verdict) : Entry :=
  { id := app.id, name := app.name,
    category := app.category.getD "unknown",
    month_target := app.month_target.getD "",
    products := app.products.getD [],
    warnings := app.warnings.getD [],
    optional := app.optional.getD false,
    schedule_order := idx,
    ready := v.ready, projected_date := v.projected_date, reason := v.reason,
    window_start := v.window_start, window_end := v.window_end }

/-- The sentinel `date(9999, 12, 31)` used as sort fallback. -/
def far_future : Int := daysFromCivil 9999 12 31

/-- The Python `sort_key`: readiness flag, effective date (projected, else
window start, else the far-future sentinel), schedule position. -/
def sort_key (x : Entry) : Nat × Int × Nat :=
  let proj :=
    match x.projected_date with
    | some d => d
    | none =>
      match x.window_start with
      | some d => d
      | none => far_future
  (if x.ready then 0 else 1, proj, x.schedule_order)

/-- Lexicographic comparison of sort keys; Python's stable sort on `sort_key`
is modelled by the (stable) `List.mergeSort` under this relation. -/
def key_le (a b : Entry) : Bool :=
  let ka := sort_key a
  let kb := sort_key b
  decide (ka.1 < kb.1 ∨ (ka.1 = kb.1 ∧
    (ka.2.1 < kb.2.1 ∨ (ka.2.1 = kb.2.1 ∧ ka.2.2 ≤ kb.2.2))))

/-- Model of `triggers.get_upcoming_applications`: evaluate every
non-completed treatment, sort by `sort_key`, truncate to `limit`. -/
def get_upcoming_applications (sys_year : Int) (fuel : Nat) (schedule : Schedule)
    (state : PersistedState) (soil_temp : Option ℚ) (today : Int)
    (limit : Nat) : List Entry :=
  let applications := schedule.applications
  let completed := state.completed
  let all_apps := applications
  let upcoming :=
    (applications.enum.filter fun p => (completed.lookup p.2.id).isNone).map
      fun p => mk_entry p.1 p.2 (evaluate_trigger sys_year fuel p.2 state soil_temp today all_apps)
  (upcoming.mergeSort key_le).take limit

/-- Model of `triggers.update_soil_temp_history` (state mutation modelled by
returning the new state). -/
def update_soil_temp_history (state : PersistedState) (soil_temp : Option ℚ)
    (today : Int) : PersistedState :=
  match soil_temp with
  | none => state
  | some t =>
    let history := state.soil_temp_history
    let history' :=
      match history with
      | e :: rest => if e.date = today then { e with temp := t } :: rest
                     else ⟨today, t⟩ :: history
      | [] => [⟨today, t⟩]
    { state with soil_temp_history := history'.take 14,
                 last_soil_temp_f := some t, last_check := some today }

/-- The module constant `SOIL_ALPHA_RISING = 0.79` from `scraper.py`. -/
def SOIL_ALPHA_RISING : ℚ := 79 / 100

/-- The module constant `SOIL_ALPHA_FALLING = 0.15` from `scraper.py`. -/
def SOIL_ALPHA_FALLING : ℚ := 15 / 100

/-- One day of the Open-Meteo air-temperature forecast. -/
structure ForecastDay where
  date : Int
  mean : ℚ
  low : ℚ
  high : ℚ
deriving DecidableEq

/-- One projected soil-temperature point. -/
structure ProjectionPoint where
  date : Int
  projected_soil_temp : ℚ
deriving DecidableEq

/-- Round a rational to the nearest integer, ties to even (the rounding of
Python's builtin `round`). -/
def round_half_even (q : ℚ) : Int :=
  let f : Int := q.floor
  let r : ℚ := q - (f : ℚ)
  if r < 1 / 2 then f
  else if 1 / 2 < r then f + 1
  else if f % 2 = 0 then f else f + 1

/-- Model of Python's `round(x, 1)`: round to one decimal place, half to even. -/
def py_round_1 (q : ℚ) : ℚ := (round_half_even (q * 10) : ℚ) / 10

/-- The loop of `scraper.project_soil_temps`, with the running `soil`
accumulator made explicit: note the UNROUNDED `soil'` is carried forward and
rounding is applied only to the reported value. -/
def project_soil_temps_go (alpha_rising alpha_falling : ℚ) :
    ℚ → List ForecastDay → List ProjectionPoint
  | _, [] => []
  | soil, day :: rest =>
    let diff := day.mean - soil
    let alpha := if 0 < diff then alpha_rising else alpha_falling
    let soil' := soil + alpha * diff
    ⟨day.date, py_round_1 soil'⟩ ::
      project_soil_temps_go alpha_rising alpha_falling soil' rest

/-- Model of `scraper.project_soil_temps`: skip the first forecast day
(today), then run the asymmetric lag recurrence. -/
def project_soil_temps (current_soil_temp : ℚ) (air_forecast : List ForecastDay)
    (alpha_rising : ℚ := SOIL_ALPHA_RISING)
    (alpha_falling : ℚ := SOIL_ALPHA_FALLING) : List ProjectionPoint :=
  project_soil_temps_go alpha_rising alpha_falling current_soil_temp (air_forecast.drop 1)

/-- Rendering of the spec's wording for the projector (§4.4): "Each projected
value is rounded to one decimal place before being carried forward as the basis
for the next day's step."  Defined only to be compared against
`project_soil_temps`, which carries the unrounded value. -/
def spec_project_soil_temps_go (alpha_rising alpha_falling : ℚ) :
    ℚ → List ForecastDay → List ProjectionPoint
  | _, [] => []
  | soil, day :: rest =>
    let alpha := if soil < day.mean then alpha_rising else alpha_falling
    let soil' := py_round_1 (soil + alpha * (day.mean - soil))
    ⟨day.date, soil'⟩ :: spec_project_soil_temps_go alpha_rising alpha_falling soil' rest

/-- The spec's rounded-carry projector on a full forecast (today first). -/
def spec_project_soil_temps (current_soil_temp : ℚ) (air_forecast : List ForecastDay)
    (alpha_rising alpha_falling : ℚ) : List ProjectionPoint :=
  spec_project_soil_temps_go alpha_rising alpha_falling current_soil_temp (air_forecast.drop 1)

/-- The bare asymmetric-lag recurrence soil[n] = soil[n-1] + alpha *
(air_mean[n] - soil[n-1]) with alpha chosen by air_mean[n] > soil[n-1], iterated
over a list of air means, with no rounding.  Reference model for the positional
characterization of `project_soil_temps`. -/
def soil_after (alpha_rising alpha_falling : ℚ) (cur : ℚ) (means : List ℚ) : ℚ :=
  means.foldl
    (fun s a => s + (if s < a then alpha_rising else alpha_falling) * (a - s)) cur

/-- The documented invariant of `soil_temp_history` (spec §3): at most one
entry per calendar day, the newest entry at index 0, at most 14 entries. -/
def history_invariant (h : List TempEntry) : Prop :=
  (h.map TempEntry.date).Nodup ∧
  (∀ e ∈ h, ∀ hd ∈ h.head?, e.date ≤ hd.date) ∧
  h.length ≤ 14

section
attribute [local semireducible] Rat.add Rat.sub Rat.mul Rat.inv

/-- C8: for direction in `{rising, falling}` the run counter returns the length
of the maximal leading prefix of the (newest-first) history satisfying the
comparison (`temp ≥ threshold` for rising, `temp ≤ threshold` for falling); the
result never exceeds the history length, and the empty history yields 0. -/
theorem count_consecutive_days_at_temp_spec (history : List TempEntry)
    (threshold : ℚ) (direction : String)
    (hdir : direction = "rising" ∨ direction = "falling") :
    count_consecutive_days_at_temp history threshold direction =
      (history.takeWhile fun e =>
        if direction = "rising" then threshold ≤ e.temp else e.temp ≤ threshold).length ∧
    count_consecutive_days_at_temp history threshold direction ≤ history.length ∧
    count_consecutive_days_at_temp [] threshold direction = 0 := by
  refine ⟨?_, ?_, rfl⟩
  · induction history with
    | nil => simp [count_consecutive_days_at_temp]
    | cons e rest ih =>
      rcases hdir with h | h <;> subst h
      · by_cases he : threshold ≤ e.temp
        · simpa [count_consecutive_days_at_temp, he] using ih
        · simp [count_consecutive_days_at_temp, he]
      · by_cases he : e.temp ≤ threshold
        · simpa [count_consecutive_days_at_temp, he] using ih
        · simp [count_consecutive_days_at_temp, he]
  · induction history with
    | nil => simp [count_consecutive_days_at_temp]
    | cons e rest ih =>
      by_cases h1 : direction = "rising" ∧ threshold ≤ e.temp
      · simp only [count_consecutive_days_at_temp, if_pos h1, List.length_cons]
        omega
      · by_cases h2 : direction = "falling" ∧ e.temp ≤ threshold
        · simp only [count_consecutive_days_at_temp, if_neg h1, if_pos h2, List.length_cons]
          omega
        · simp [count_consecutive_days_at_temp, if_neg h1, if_neg h2]

/-- C8 witness: the run counter on history temps 90, 85, 70 (newest first) with
threshold 80, direction rising, stops at the third entry and returns 2. -/
theorem count_consecutive_days_at_temp_spec_witness :
    count_consecutive_days_at_temp [⟨0, 90⟩, ⟨1, 85⟩, ⟨2, 70⟩] 80 "rising" = 2 ∧
    count_consecutive_days_at_temp [⟨0, 90⟩, ⟨1, 85⟩, ⟨2, 70⟩] 80 "rising" ≤ 3 := by
  have h := count_consecutive_days_at_temp_spec [⟨0, 90⟩, ⟨1, 85⟩, ⟨2, 70⟩] 80 "rising"
    (Or.inl rfl)
  refine ⟨?_, h.2.1⟩
  rw [h.1]
  decide

end

section
attribute [local semireducible] Rat.add Rat.sub Rat.mul Rat.inv

/-- C5: for a non-completed `soil_temp` (rising) treatment, an unknown current
soil temperature yields not-ready with the waiting-for-data reason; otherwise
the verdict is ready iff the rising run count of the history against
`threshold_f` reaches `consecutive_days` (default 1), and `projected_date` is
today exactly when ready. -/
theorem evaluate_soil_temp_rising_spec (sys_year : Int) (fuel : Nat) (app : App)
    (state : PersistedState) (soil_temp : Option ℚ) (today : Int)
    (all_apps : List App) (threshold : ℚ) (dir : Option String) (cons : Option Nat)
    (htr : app.trigger = .soil_temp threshold dir cons)
    (hdir : dir.getD "rising" = "rising")
    (hnc : state.completed.lookup app.id = none) :
    (soil_temp = none →
      (evaluate_trigger sys_year fuel app state soil_temp today all_apps).ready = false ∧
      (evaluate_trigger sys_year fuel app state soil_temp today all_apps).reason
        = .waitingForData) ∧
    (∀ st, soil_temp = some st →
      ((evaluate_trigger sys_year fuel app state soil_temp today all_apps).ready = true ↔
        cons.getD 1 ≤
          count_consecutive_days_at_temp state.soil_temp_history threshold "rising") ∧
      ((evaluate_trigger sys_year fuel app state soil_temp today all_apps).projected_date
          = some today ↔
        (evaluate_trigger sys_year fuel app state soil_temp today all_apps).ready = true)) := by
  have he : evaluate_trigger sys_year fuel app state soil_temp today all_apps
      = evaluate_soil_temp_rising sys_year app threshold dir cons
          state.soil_temp_history soil_temp today .base := by
    rw [evaluate_trigger, hnc, htr]
  rw [he]
  constructor
  · rintro rfl
    cases hw : app.kc_typical_window <;>
      simp [evaluate_soil_temp_rising, hw, Verdict.base]
  · rintro st rfl
    rw [evaluate_soil_temp_rising, hdir]
    by_cases hc : cons.getD 1 ≤
        count_consecutive_days_at_temp state.soil_temp_history threshold "rising" <;>
      cases hw : app.kc_typical_window <;>
        simp [hw, hc, Verdict.base]

/-- C5 witness: threshold 55, `consecutive_days` 3, history 56, 57, 58 (newest
first) evaluates to ready. -/
theorem evaluate_soil_temp_rising_spec_witness :
    (evaluate_trigger 2024 0
      ⟨"pre", "Pre-emergent", none, none, none, none, none,
        .soil_temp 55 none (some 3), none⟩
      ⟨[], [⟨19858, 56⟩, ⟨19857, 57⟩, ⟨19856, 58⟩], none, none⟩ (some 56) 19858 []).ready = true := by
  have h := evaluate_soil_temp_rising_spec 2024 0
    ⟨"pre", "Pre-emergent", none, none, none, none, none,
      .soil_temp 55 none (some 3), none⟩
    ⟨[], [⟨19858, 56⟩, ⟨19857, 57⟩, ⟨19856, 58⟩], none, none⟩ (some 56) 19858 []
    55 none (some 3) rfl rfl rfl
  rw [(h.2 56 rfl).1]
  decide

end

section
attribute [local semireducible] Rat.add Rat.sub Rat.mul Rat.inv

/-- C6: a non-completed `soil_temp_falling` treatment evaluated on a reference
date whose month is less than 8 is never ready, with the season-wait reason,
regardless of history and current soil temperature. -/
theorem evaluate_soil_temp_falling_season_guard (sys_year : Int) (fuel : Nat)
    (app : App) (state : PersistedState) (soil_temp : Option ℚ) (today : Int)
    (all_apps : List App) (threshold : ℚ) (cons : Option Nat)
    (htr : app.trigger = .soil_temp_falling threshold cons)
    (hnc : state.completed.lookup app.id = none)
    (hm : monthOf today < 8) :
    (evaluate_trigger sys_year fuel app state soil_temp today all_apps).ready = false ∧
    (evaluate_trigger sys_year fuel app state soil_temp today all_apps).reason
      = .waitingForFallSeason := by
  have he : evaluate_trigger sys_year fuel app state soil_temp today all_apps
      = evaluate_soil_temp_falling sys_year app threshold cons
          state.soil_temp_history soil_temp today .base := by
    rw [evaluate_trigger, hnc, htr]
  rw [he]
  cases hw : app.kc_typical_window <;>
    simp [evaluate_soil_temp_falling, hm, hw, Verdict.base]

/-- C6 witness: on 2024-05-15 (month 5, ordinal 19858) a `soil_temp_falling`
trigger is not ready even with a cold history and known soil temperature. -/
theorem evaluate_soil_temp_falling_season_guard_witness :
    monthOf 19858 < 8 ∧
    (evaluate_trigger 2024 0
      ⟨"fall-n", "Fall nitrogen", none, none, none, none, none,
        .soil_temp_falling 50 (some 1), none⟩
      ⟨[], [⟨19858, 40⟩], none, none⟩ (some 40) 19858 []).ready = false := by
  refine ⟨by decide, ?_⟩
  exact (evaluate_soil_temp_falling_season_guard 2024 0
    ⟨"fall-n", "Fall nitrogen", none, none, none, none, none,
      .soil_temp_falling 50 (some 1), none⟩
    ⟨[], [⟨19858, 40⟩], none, none⟩ (some 40) 19858 [] 50 (some 1)
    rfl rfl (by decide)).1

end

section
attribute [local semireducible] Rat.add Rat.sub Rat.mul Rat.inv

/-- C3: for a non-completed `days_after` treatment (with a well-formed offset
pair `days_min ≤ days_max`): while the referenced treatment is not completed
the verdict is not ready, reason waiting-on-reference, with no window and no
projected date; once completed, the window is
`[completion + days_min, completion + days_max]`, ready holds iff today lies in
that closed interval, a today before the window gives projected date =
window start, and a today past the window gives the window-closed reason —
on that day and on every later day. -/
theorem evaluate_days_after_spec (sys_year : Int) (fuel : Nat) (app : App)
    (state : PersistedState) (soil_temp : Option ℚ) (today : Int)
    (all_apps : List App) (ref : String) (dmin dmax : Int)
    (htr : app.trigger = .days_after ref dmin dmax)
    (hwf : dmin ≤ dmax)
    (hnc : state.completed.lookup app.id = none) :
    (state.completed.lookup ref = none →
      evaluate_trigger sys_year fuel app state soil_temp today all_apps
        = { Verdict.base with reason := .waitingOn ref }) ∧
    (∀ cd, state.completed.lookup ref = some cd →
      (evaluate_trigger sys_year fuel app state soil_temp today all_apps).window_start
          = some (cd + dmin) ∧
      (evaluate_trigger sys_year fuel app state soil_temp today all_apps).window_end
          = some (cd + dmax) ∧
      ((evaluate_trigger sys_year fuel app state soil_temp today all_apps).ready = true ↔
        cd + dmin ≤ today ∧ today ≤ cd + dmax) ∧
      (today < cd + dmin →
        (evaluate_trigger sys_year fuel app state soil_temp today all_apps).ready = false ∧
        (evaluate_trigger sys_year fuel app state soil_temp today all_apps).projected_date
          = some (cd + dmin)) ∧
      (cd + dmax < today →
        (evaluate_trigger sys_year fuel app state soil_temp today all_apps).ready = false ∧
        (evaluate_trigger sys_year fuel app state soil_temp today all_apps).reason
          = .windowClosed (cd + dmax) ∧
        ∀ later, today ≤ later →
          (evaluate_trigger sys_year fuel app state soil_temp later all_apps).ready
            = false ∧
          (evaluate_trigger sys_year fuel app state soil_temp later all_apps).reason
            = .windowClosed (cd + dmax))) := by
  have he : ∀ d : Int, evaluate_trigger sys_year fuel app state soil_temp d all_apps
      = evaluate_days_after ref dmin dmax state.completed d .base := by
    intro d; rw [evaluate_trigger, hnc, htr]
  constructor
  · intro h0
    rw [he today]
    simp [evaluate_days_after, h0]
  · intro cd hcd
    rw [he today]
    simp only [evaluate_days_after, hcd]
    split_ifs with h1 h2
    · refine ⟨rfl, rfl, by simp [Verdict.base]; omega, ?_, ?_⟩
      · intro hlt; exfalso; omega
      · intro hgt; exfalso; omega
    · refine ⟨rfl, rfl, by simp [Verdict.base]; omega, fun _ => ⟨rfl, rfl⟩, ?_⟩
      intro hgt; exfalso; omega
    · refine ⟨rfl, rfl, by simp [Verdict.base]; omega, ?_, ?_⟩
      · intro hlt; exfalso; omega
      · intro _
        refine ⟨rfl, rfl, ?_⟩
        intro later hlater
        rw [he later]
        simp only [evaluate_days_after, hcd]
        split_ifs with g1 g2
        · exfalso; omega
        · exfalso; omega
        · exact ⟨rfl, rfl⟩

/-- C3 witness: `days_min=7, days_max=14`, reference completed 20 days before
today (completion ordinal 19838, today 19858): the window closed on 19852 and
the verdict is not ready with the window-closed reason. -/
theorem evaluate_days_after_spec_witness :
    (evaluate_trigger 2024 0
      ⟨"post", "Post treatment", none, none, none, none, none,
        .days_after "pre" 7 14, none⟩
      ⟨[("pre", 19838)], [], none, none⟩ none 19858 []).ready = false ∧
    (evaluate_trigger 2024 0
      ⟨"post", "Post treatment", none, none, none, none, none,
        .days_after "pre" 7 14, none⟩
      ⟨[("pre", 19838)], [], none, none⟩ none 19858 []).reason
      = .windowClosed 19852 := by
  have h := evaluate_days_after_spec 2024 0
    ⟨"post", "Post treatment", none, none, none, none, none,
      .days_after "pre" 7 14, none⟩
    ⟨[("pre", 19838)], [], none, none⟩ none 19858 [] "pre" 7 14
    rfl (by decide) rfl
  have h2 := (h.2 19838 rfl).2.2.2.2 (by decide)
  exact ⟨h2.1, h2.2.1⟩

end

section
attribute [local semireducible] Rat.add Rat.sub Rat.mul Rat.inv

/-- C7: for a non-completed `same_as` treatment, a resolvable reference copies
the referenced treatment's verdict (ready, projected date, window) verbatim and
wraps its reason with the reference id; an unresolvable reference yields a
not-ready verdict whose reason names the missing id (total evaluation — no
exception path exists in the model). -/
theorem evaluate_same_as_spec (sys_year : Int) (fuel : Nat) (app : App)
    (state : PersistedState) (soil_temp : Option ℚ) (today : Int)
    (all_apps : List App) (ref : String)
    (htr : app.trigger = .same_as ref)
    (hnc : state.completed.lookup app.id = none) :
    (∀ ref_app, dict_of_apps all_apps ref = some ref_app →
      (evaluate_trigger sys_year (fuel + 1) app state soil_temp today all_apps).ready
        = (evaluate_trigger sys_year fuel ref_app state soil_temp today all_apps).ready ∧
      (evaluate_trigger sys_year (fuel + 1) app state soil_temp today all_apps).projected_date
        = (evaluate_trigger sys_year fuel ref_app state soil_temp today all_apps).projected_date ∧
      (evaluate_trigger sys_year (fuel + 1) app state soil_temp today all_apps).window_start
        = (evaluate_trigger sys_year fuel ref_app state soil_temp today all_apps).window_start ∧
      (evaluate_trigger sys_year (fuel + 1) app state soil_temp today all_apps).window_end
        = (evaluate_trigger sys_year fuel ref_app state soil_temp today all_apps).window_end ∧
      (evaluate_trigger sys_year (fuel + 1) app state soil_temp today all_apps).reason
        = .sameAsWrap ref
            (evaluate_trigger sys_year fuel ref_app state soil_temp today all_apps).reason) ∧
    (dict_of_apps all_apps ref = none →
      evaluate_trigger sys_year (fuel + 1) app state soil_temp today all_apps
        = { Verdict.base with reason := .refNotFound ref }) := by
  constructor
  · intro ref_app href
    have he : evaluate_trigger sys_year (fuel + 1) app state soil_temp today all_apps
        = { ready := (evaluate_trigger sys_year fuel ref_app state soil_temp today all_apps).ready,
            projected_date :=
              (evaluate_trigger sys_year fuel ref_app state soil_temp today all_apps).projected_date,
            reason := .sameAsWrap ref
              (evaluate_trigger sys_year fuel ref_app state soil_temp today all_apps).reason,
            window_start :=
              (evaluate_trigger sys_year fuel ref_app state soil_temp today all_apps).window_start,
            window_end :=
              (evaluate_trigger sys_year fuel ref_app state soil_temp today all_apps).window_end } := by
      conv_lhs => rw [evaluate_trigger]
      simp only [hnc, htr, href]
    rw [he]
    exact ⟨rfl, rfl, rfl, rfl, rfl⟩
  · intro href
    have he : evaluate_trigger sys_year (fuel + 1) app state soil_temp today all_apps
        = { Verdict.base with reason := .refNotFound ref } := by
      conv_lhs => rw [evaluate_trigger]
      simp only [hnc, htr, href]
    exact he

/-- C7 witness: a `same_as` trigger whose reference id is absent from the
schedule lookup evaluates to not ready with the missing id in the reason. -/
theorem evaluate_same_as_spec_witness :
    evaluate_trigger 2024 1
      ⟨"alias", "Alias treatment", none, none, none, none, none,
        .same_as "ghost", none⟩
      ⟨[], [], none, none⟩ none 19858 []
      = { Verdict.base with reason := .refNotFound "ghost" } :=
  (evaluate_same_as_spec 2024 0
    ⟨"alias", "Alias treatment", none, none, none, none, none,
      .same_as "ghost", none⟩
    ⟨[], [], none, none⟩ none 19858 [] "ghost" rfl rfl).2 rfl

end

section
attribute [local semireducible] Rat.add Rat.sub Rat.mul Rat.inv

/-- C10: trigger evaluation is not a function of its declared inputs alone:
`parse_date` resolves the year of `MM-DD` calendar-window bounds from the
ambient system clock, so identical explicit arguments evaluated under two
different system-clock years can yield different verdicts (here a June 1-30
window evaluated on 2024-06-15: in-window under clock year 2024, not yet open
under clock year 2025). -/
theorem evaluate_trigger_depends_on_system_clock :
    ∃ (app : App) (state : PersistedState) (soil_temp : Option ℚ) (today : Int)
      (all_apps : List App) (y₁ y₂ : Int),
      y₁ ≠ y₂ ∧
      evaluate_trigger y₁ 0 app state soil_temp today all_apps
        ≠ evaluate_trigger y₂ 0 app state soil_temp today all_apps :=
  ⟨⟨"cw", "Calendar treatment", none, none, none, none, none,
      .calendar_window (.md 6 1) (.md 6 30), none⟩,
    ⟨[], [], none, none⟩, none, 19889, [], 2024, 2025, by decide, by decide⟩

end

/-- C9: updating with a known temperature for a day no earlier than every
recorded day preserves the history invariant: at most 14 entries, at most one
entry per day (an existing entry for today is overwritten in place, not
duplicated), and today's entry at index 0. -/
theorem update_soil_temp_history_invariant (state : PersistedState) (t : ℚ)
    (today : Int)
    (hinv : history_invariant state.soil_temp_history)
    (hle : ∀ e ∈ state.soil_temp_history, e.date ≤ today) :
    history_invariant (update_soil_temp_history state (some t) today).soil_temp_history ∧
    ((update_soil_temp_history state (some t) today).soil_temp_history.map
        TempEntry.date).count today ≤ 1 ∧
    (update_soil_temp_history state (some t) today).soil_temp_history.head?.map
        TempEntry.date = some today := by
  obtain ⟨comp, hist, lst, lc⟩ := state
  obtain ⟨hnd, hmax, hlen⟩ := hinv
  simp only at hnd hmax hlen hle
  cases hist with
  | nil =>
    have hrepr : (update_soil_temp_history ⟨comp, [], lst, lc⟩ (some t) today).soil_temp_history
        = [⟨today, t⟩] := rfl
    rw [hrepr]
    exact ⟨⟨by simp, by simp, by simp⟩, by simp, by simp⟩
  | cons e rest =>
    by_cases he : e.date = today
    · have hrepr : (update_soil_temp_history ⟨comp, e :: rest, lst, lc⟩ (some t) today).soil_temp_history
          = ({ e with temp := t } :: rest).take 14 := by
        simp only [update_soil_temp_history, he, if_true]
      rw [hrepr]
      have hnd0 : (({ e with temp := t } :: rest).map TempEntry.date).Nodup := by
        simpa using hnd
      have hnd' : ((({ e with temp := t } :: rest).take 14).map TempEntry.date).Nodup :=
        ((List.take_sublist 14 _).map TempEntry.date).nodup hnd0
      refine ⟨⟨hnd', ?_, ?_⟩, ?_, ?_⟩
      · intro x hx hd hhd
        rw [List.take_succ_cons] at hx hhd
        simp only [List.head?_cons, Option.mem_def, Option.some.injEq] at hhd
        subst hhd
        rcases List.mem_cons.mp hx with rfl | hx'
        · exact le_refl _
        · exact hmax x (List.mem_cons_of_mem e (List.mem_of_mem_take hx')) e (by simp)
      · rw [List.length_take]; omega
      · exact List.nodup_iff_count_le_one.mp hnd' today
      · simp [List.take_succ_cons, he]
    · have hrepr : (update_soil_temp_history ⟨comp, e :: rest, lst, lc⟩ (some t) today).soil_temp_history
          = ((⟨today, t⟩ : TempEntry) :: e :: rest).take 14 := by
        simp only [update_soil_temp_history, he, if_false]
      rw [hrepr]
      have hnotmem : today ∉ (e :: rest).map TempEntry.date := by
        intro hmem
        obtain ⟨x, hx, hxd⟩ := List.mem_map.mp hmem
        have h1 : x.date ≤ e.date := hmax x hx e (by simp)
        have h2 : e.date ≤ today := hle e (List.mem_cons_self e rest)
        exact he (le_antisymm h2 (hxd ▸ h1))
      have hnd0 : (((⟨today, t⟩ : TempEntry) :: e :: rest).map TempEntry.date).Nodup :=
        List.nodup_cons.mpr ⟨hnotmem, hnd⟩
      have hnd' : ((((⟨today, t⟩ : TempEntry) :: e :: rest).take 14).map TempEntry.date).Nodup :=
        ((List.take_sublist 14 _).map TempEntry.date).nodup hnd0
      refine ⟨⟨hnd', ?_, ?_⟩, ?_, ?_⟩
      · intro x hx hd hhd
        rw [List.take_succ_cons] at hx hhd
        simp only [List.head?_cons, Option.mem_def, Option.some.injEq] at hhd
        subst hhd
        rcases List.mem_cons.mp hx with rfl | hx'
        · exact le_refl _
        · exact hle x (List.mem_of_mem_take hx')
      · rw [List.length_take]; omega
      · exact List.nodup_iff_count_le_one.mp hnd' today
      · simp [List.take_succ_cons]

/-- C9 witness: a one-entry history for yesterday, updated with a reading for
today, keeps the invariant with today's entry in front. -/
theorem update_soil_temp_history_invariant_witness :
    (update_soil_temp_history ⟨[], [⟨19857, 55⟩], none, none⟩ (some 56) 19858).soil_temp_history.head?.map
      TempEntry.date = some 19858 :=
  (update_soil_temp_history_invariant ⟨[], [⟨19857, 55⟩], none, none⟩ 56 19858
    ⟨by simp, by simp, by simp⟩ (by simp)).2.2

/-- The two forms of the asymmetric branch condition agree: the code tests
`diff > 0` for `diff = air - soil`, the spec says `air_mean > soil`. -/
theorem lag_step_eq (alpha_rising alpha_falling soil a : ℚ) :
    soil + (if 0 < a - soil then alpha_rising else alpha_falling) * (a - soil)
      = soil + (if soil < a then alpha_rising else alpha_falling) * (a - soil) := by
  by_cases h : soil < a
  · rw [if_pos (sub_pos.mpr h), if_pos h]
  · rw [if_neg fun hh => h (sub_pos.mp hh), if_neg h]

/-- Positional characterization of the projection loop: the n-th output is the
n-th forecast day's date paired with the rounding of the UNROUNDED lag
recurrence iterated over the first n+1 air means. -/
theorem project_soil_temps_go_getElem? (alpha_rising alpha_falling : ℚ) :
    ∀ (l : List ForecastDay) (soil : ℚ) (n : Nat),
    (project_soil_temps_go alpha_rising alpha_falling soil l)[n]? =
      (l[n]?).map fun day =>
        ⟨day.date, py_round_1
          (soil_after alpha_rising alpha_falling soil
            ((l.take (n + 1)).map ForecastDay.mean))⟩
  | [], soil, n => by simp [project_soil_temps_go]
  | day :: rest, soil, 0 => by
    simp [project_soil_temps_go, soil_after,
      lag_step_eq alpha_rising alpha_falling soil day.mean]
  | day :: rest, soil, n + 1 => by
    simp only [project_soil_temps_go, List.getElem?_cons_succ, List.take_succ_cons,
      List.map_cons, soil_after, List.foldl_cons]
    rw [project_soil_temps_go_getElem? alpha_rising alpha_falling rest _ n,
      lag_step_eq alpha_rising alpha_falling soil day.mean]
    rfl

/-- The projection loop emits one point per forecast day it consumes. -/
theorem project_soil_temps_go_length (alpha_rising alpha_falling : ℚ) :
    ∀ (l : List ForecastDay) (soil : ℚ),
    (project_soil_temps_go alpha_rising alpha_falling soil l).length = l.length
  | [], _ => rfl
  | day :: rest, soil => by
    simp [project_soil_temps_go, project_soil_temps_go_length alpha_rising alpha_falling rest]

section
attribute [local semireducible] Rat.add Rat.sub Rat.mul Rat.inv

/-- C1 (amended): the projector returns one point per forecast day strictly
after today, whose n-th value is the one-decimal rounding of the unrounded
asymmetric lag recurrence `soil[k] = soil[k-1] + alpha * (air_mean[k] -
soil[k-1])` (alpha chosen by `air_mean[k] > soil[k-1]`) over the first n+1
post-today air means — the unrounded value, not the rounded one, is carried
forward; in particular the spec's worked example 60 / [60, 70, 50] with alphas
0.8, 0.1 yields 68.0 then 66.2. -/
theorem project_soil_temps_spec (cur : ℚ) (fc : List ForecastDay)
    (alpha_rising alpha_falling : ℚ) :
    (project_soil_temps cur fc alpha_rising alpha_falling).length = fc.length - 1 ∧
    (∀ n : Nat, (project_soil_temps cur fc alpha_rising alpha_falling)[n]? =
      ((fc.drop 1)[n]?).map fun day =>
        ⟨day.date, py_round_1
          (soil_after alpha_rising alpha_falling cur
            (((fc.drop 1).take (n + 1)).map ForecastDay.mean))⟩) ∧
    project_soil_temps 60 [⟨0, 60, 0, 0⟩, ⟨1, 70, 0, 0⟩, ⟨2, 50, 0, 0⟩] (8/10) (1/10)
      = [⟨1, 68⟩, ⟨2, 331/5⟩] := by
  refine ⟨?_, ?_, by decide⟩
  · rw [project_soil_temps, project_soil_temps_go_length]
    simp
  · intro n
    exact project_soil_temps_go_getElem? alpha_rising alpha_falling (fc.drop 1) cur n

/-- C1 counterexample: carrying the rounded value forward (the spec's wording,
`spec_project_soil_temps`) and carrying the unrounded value forward (the code,
`project_soil_temps`) disagree: from soil 0 with means [0, 1.6, 16/15] and both
alphas 0.15 the code reports [0.2, 0.4] but the rounded-carry recurrence
reports [0.2, 0.3]. -/
theorem project_soil_temps_counterexample :
    project_soil_temps 0 [⟨0, 0, 0, 0⟩, ⟨1, 8/5, 0, 0⟩, ⟨2, 16/15, 0, 0⟩] (3/20) (3/20)
      = [⟨1, 1/5⟩, ⟨2, 2/5⟩] ∧
    spec_project_soil_temps 0 [⟨0, 0, 0, 0⟩, ⟨1, 8/5, 0, 0⟩, ⟨2, 16/15, 0, 0⟩] (3/20) (3/20)
      = [⟨1, 1/5⟩, ⟨2, 3/10⟩] ∧
    project_soil_temps 0 [⟨0, 0, 0, 0⟩, ⟨1, 8/5, 0, 0⟩, ⟨2, 16/15, 0, 0⟩] (3/20) (3/20)
      ≠ spec_project_soil_temps 0 [⟨0, 0, 0, 0⟩, ⟨1, 8/5, 0, 0⟩, ⟨2, 16/15, 0, 0⟩]
          (3/20) (3/20) :=
  ⟨by decide, by decide, by decide⟩

end

/-- C2 (code slip, documented intent violated): the ranker truncates with
`upcoming[:limit]`, so the output length never exceeds `limit` — and a limit of
zero returns the empty list, not "all non-completed entries" as the spec and
the caller at `lawn_notify.py:141` ("Get ALL upcoming apps for dashboard
(limit=0)") require: with one non-completed treatment, limit 0 yields `[]`
while limit 1 yields a non-empty list. -/
theorem get_upcoming_applications_limit_zero_bug :
    (∀ (sys_year : Int) (fuel : Nat) (schedule : Schedule) (state : PersistedState)
      (soil_temp : Option ℚ) (today : Int) (limit : Nat),
      (get_upcoming_applications sys_year fuel schedule state soil_temp today
        limit).length ≤ limit) ∧
    get_upcoming_applications 2024 0
      ⟨[⟨"app1", "Treatment one", none, none, none, none, none, .unknown none, none⟩]⟩
      ⟨[], [], none, none⟩ none 19858 0 = [] ∧
    get_upcoming_applications 2024 0
      ⟨[⟨"app1", "Treatment one", none, none, none, none, none, .unknown none, none⟩]⟩
      ⟨[], [], none, none⟩ none 19858 1 ≠ [] := by
  refine ⟨?_, ?_, ?_⟩
  · intro sys_year fuel schedule state soil_temp today limit
    rw [get_upcoming_applications, List.length_take]
    omega
  · rw [get_upcoming_applications]
    simp
  · rw [get_upcoming_applications]
    simp [List.mergeSort_singleton]

/-- The sort-key comparison is total. -/
theorem key_le_total (a b : Entry) : key_le a b || key_le b a := by
  simp only [key_le, Bool.or_eq_true, decide_eq_true_eq]
  omega

/-- The sort-key comparison is transitive. -/
theorem key_le_trans : ∀ (a b c : Entry), key_le a b → key_le b c → key_le a c := by
  intro a b c
  simp only [key_le, decide_eq_true_eq]
  omega

/-- `enumFrom` carries strictly increasing indices. -/
theorem enumFrom_pairwise_fst_lt {α : Type} (l : List α) (n : Nat) :
    (l.enumFrom n).Pairwise fun p q => p.1 < q.1 := by
  induction l generalizing n with
  | nil => simp
  | cons a t ih =>
    simp only [List.enumFrom_cons, List.pairwise_cons]
    refine ⟨fun q hq => ?_, ih (n + 1)⟩
    have := List.le_fst_of_mem_enumFrom hq
    omega

/-- C4: the ranker excludes treatments recorded as completed and returns
entries sorted ascending by (ready first, effective date = projected date else
window start else the far-future sentinel, original schedule position); when
every evaluated treatment is not ready with no projected date and no window
start, the output is the original schedule order (truncated to the limit). -/
theorem get_upcoming_applications_order_spec (sys_year : Int) (fuel : Nat)
    (schedule : Schedule) (state : PersistedState) (soil_temp : Option ℚ)
    (today : Int) (limit : Nat) :
    (∀ e ∈ get_upcoming_applications sys_year fuel schedule state soil_temp today limit,
      state.completed.lookup e.id = none) ∧
    (get_upcoming_applications sys_year fuel schedule state soil_temp today
        limit).Pairwise (fun a b => key_le a b = true) ∧
    ((∀ app ∈ schedule.applications, state.completed.lookup app.id = none →
        (evaluate_trigger sys_year fuel app state soil_temp today
            schedule.applications).ready = false ∧
        (evaluate_trigger sys_year fuel app state soil_temp today
            schedule.applications).projected_date = none ∧
        (evaluate_trigger sys_year fuel app state soil_temp today
            schedule.applications).window_start = none) →
      get_upcoming_applications sys_year fuel schedule state soil_temp today limit
        = ((schedule.applications.enum.filter fun p =>
              (state.completed.lookup p.2.id).isNone).map fun p =>
                mk_entry p.1 p.2 (evaluate_trigger sys_year fuel p.2 state soil_temp
                  today schedule.applications)).take limit) := by
  have hout : get_upcoming_applications sys_year fuel schedule state soil_temp today limit
      = (((schedule.applications.enum.filter fun p =>
            (state.completed.lookup p.2.id).isNone).map fun p =>
              mk_entry p.1 p.2 (evaluate_trigger sys_year fuel p.2 state soil_temp
                today schedule.applications)).mergeSort key_le).take limit := rfl
  refine ⟨?_, ?_, ?_⟩
  · intro e he
    rw [hout] at he
    have he2 := List.mem_mergeSort.mp (List.mem_of_mem_take he)
    obtain ⟨p, hp, rfl⟩ := List.mem_map.mp he2
    have hpred := List.of_mem_filter hp
    simpa [mk_entry, Option.isNone_iff_eq_none] using hpred
  · rw [hout]
    exact List.Pairwise.sublist (List.take_sublist limit _)
      (List.sorted_mergeSort key_le_trans key_le_total _)
  · intro H
    rw [hout]
    have hpw : (((schedule.applications.enum.filter fun p =>
          (state.completed.lookup p.2.id).isNone).map fun p =>
            mk_entry p.1 p.2 (evaluate_trigger sys_year fuel p.2 state soil_temp
              today schedule.applications)).Pairwise fun a b => key_le a b = true) := by
      rw [List.pairwise_map]
      refine List.Pairwise.imp_of_mem ?_
        ((enumFrom_pairwise_fst_lt schedule.applications 0).filter _)
      intro p q hp hq hlt
      have hp2 : p.2 ∈ schedule.applications :=
        List.snd_mem_of_mem_enumFrom (List.mem_of_mem_filter hp)
      have hq2 : q.2 ∈ schedule.applications :=
        List.snd_mem_of_mem_enumFrom (List.mem_of_mem_filter hq)
      have hpl := (List.mem_filter.mp hp).2
      have hql := (List.mem_filter.mp hq).2
      obtain ⟨hr1, hr2, hr3⟩ := H p.2 hp2 (Option.isNone_iff_eq_none.mp hpl)
      obtain ⟨hs1, hs2, hs3⟩ := H q.2 hq2 (Option.isNone_iff_eq_none.mp hql)
      simp only [key_le, sort_key, mk_entry, hr1, hr2, hr3, hs1, hs2, hs3,
        decide_eq_true_eq, Bool.false_eq_true, if_false]
      exact Or.inr ⟨trivial, Or.inr ⟨trivial, Nat.le_of_lt hlt⟩⟩
    rw [List.mergeSort_of_sorted hpw]

/-- C4 witness: two unknown-trigger treatments (not ready, no date signal)
come back in original schedule order. -/
theorem get_upcoming_applications_order_spec_witness :
    get_upcoming_applications 2024 0
      ⟨[⟨"a1", "T1", none, none, none, none, none, .unknown none, none⟩,
        ⟨"a2", "T2", none, none, none, none, none, .unknown none, none⟩]⟩
      ⟨[], [], none, none⟩ none 19858 5
      = [⟨"a1", "T1", "unknown", "", [], [], false, 0, false, none,
            .unknownType none, none, none⟩,
         ⟨"a2", "T2", "unknown", "", [], [], false, 1, false, none,
            .unknownType none, none, none⟩] := by
  have h := (get_upcoming_applications_order_spec 2024 0
    ⟨[⟨"a1", "T1", none, none, none, none, none, .unknown none, none⟩,
      ⟨"a2", "T2", none, none, none, none, none, .unknown none, none⟩]⟩
    ⟨[], [], none, none⟩ none 19858 5).2.2 (by decide)
  exact h.trans (by decide)
